import Mathlib

/-!
Verification development for the study-material generation service
(`main.py`).  The service exposes four HTTP routes; the two POST routes
build CrewAI agent/task objects and submit them, in sequence, to an
external text-generation capability (Gemini via CrewAI's `Crew.kickoff`).

Shallow embedding choices:
* The external generation capability is an oracle
  `Oracle := Nat → Task → Except GenError String`: the `Nat` is the
  position of the call in the request's own call sequence, and a
  `GenError` models an exception raised by the upstream call
  (`crew.kickoff()` in the source).  `str(result)` in the source is the
  identity here because the oracle already yields a `String`.
* Each handler returns, next to its result, the list of tasks it
  submitted to the oracle, in order (the call trace).  The trace is pure
  instrumentation: it records exactly the `kickoff` calls the source
  performs, so that sequencing and zero-invocation properties can be
  stated.
* Python `int` is `Int` (unbounded); the f-string interpolation
  `f"{num_mcqs}"` is `toString : Int → String` (both print the sign and
  the decimal digits).
* Exceptions propagate as `Except.error`, aborting the handler exactly
  where the source's unhandled exception would.
-/

namespace StudyMaterialGen

/-- JSON values, as delivered by the HTTP layer to request-body
validation.  A number carries a rational value; it is an integer
precisely when its denominator is 1. -/
inductive Json where
  | null : Json
  | bool : Bool → Json
  | num : Rat → Json
  | str : String → Json
  | arr : List Json → Json
  | obj : List (String × Json) → Json

/-- Field lookup on a JSON object (first binding wins); `none` on
non-objects and absent keys. -/
def Json.field (j : Json) (k : String) : Option Json :=
  match j with
  | .obj fs => fs.lookup k
  | _ => none

/-- Configuration of the Gemini LLM handle (source lines 18-22).  The
source's float literal `0.3` is represented exactly as the rational
3/10. -/
structure LLMConfig where
  model : String
  api_key : String
  temperature : Rat
deriving DecidableEq

/-- Process environment: `os.getenv`. -/
abbrev Env := String → Option String

/-- Startup of the module (source lines 12-22): read `GEMINI_API_KEY`
from the environment; if it is absent raise
`ValueError("GEMINI_API_KEY is not set. ...")`, otherwise construct the
`gemini_llm` handle.  The whole module (hence every route) only exists
when this returns `.ok`. -/
def buildApp (env : Env) : Except String LLMConfig :=
  match env ("GEMINI_API_KEY") with
  | none => .error ("GEMINI_API_KEY is not set. Please add it to your .env file.")
  | some key =>
      .ok { model := "gemini/gemini-2.5-pro", api_key := key, temperature := 3/10 }

/-- GET / (source lines 39-41). -/
def read_root : Json :=
  .obj [("message", .str "Study Material Generator API is running 🚀")]

/-- GET /health (source lines 43-45). -/
def health_check : Json :=
  .obj [("status", .str "ok")]

/-- A CrewAI `Agent` (role, goal, backstory, llm, verbose). -/
structure Agent where
  role : String
  goal : String
  backstory : String
  llm : LLMConfig
  verbose : Bool
deriving DecidableEq

/-- A CrewAI `Task` (description, expected_output, agent). -/
structure Task where
  description : String
  expected_output : String
  agent : Agent
deriving DecidableEq

/-- An exception raised by an upstream generation call. -/
structure GenError where
  message : String
deriving DecidableEq

/-- The external generation capability: `Crew([agent], [task]).kickoff()`.
Applied to the index of the call within the request and the task, it
either returns generated text or raises. -/
abbrev Oracle := Nat → Task → Except GenError String

/-- Request model for POST /summarize (source lines 49-50). -/
structure SummarizeRequest where
  text : String
deriving DecidableEq

/-- Response of POST /summarize (source lines 97-99). -/
structure SummarizeResponse where
  summary : String
deriving DecidableEq

/-- Request model for POST /generate_study_material (source lines
101-103): required text, `num_mcqs` defaulting to 5. -/
structure StudyMaterialRequest where
  text : String
  num_mcqs : Int
deriving DecidableEq

/-- Response of POST /generate_study_material (source lines 281-285):
exactly the three string fields of the returned dict. -/
structure StudyMaterialResponse where
  topics : String
  notes : String
  mcqs : String
deriving DecidableEq

/-- The summarizer agent (source lines 60-70). -/
def summarizer_agent (llm : LLMConfig) : Agent where
  role := "Subject Teacher"
  goal := "Create short, exam-focused summaries of study material."
  backstory := "You are a very good college teacher. You read the given content and write clear, simple, point-wise notes that help students revise before exams."
  llm := llm
  verbose := true

/-- Literal chunk of the summarize task description preceding the user
text (source lines 74-77). -/
def summarize_desc_pre : String :=
  "Read the following study material and create a short, clear, exam-focused summary in simple language. Use bullet points where possible.\n\nCONTENT:\n"

/-- The summarize task (source lines 73-84). -/
def summarize_task (llm : LLMConfig) (user_text : String) : Task where
  description := summarize_desc_pre ++ user_text
  expected_output := "A concise summary of the content, with bullet points, covering all important concepts for exam preparation."
  agent := summarizer_agent llm

/-- POST /summarize handler (source lines 54-99): build the agent and
task, run one crew, return its stringified result as the field
"summary".  The second component records the generation calls made. -/
def summarize_text (llm : LLMConfig) (o : Oracle) (request : SummarizeRequest) :
    Except GenError SummarizeResponse × List Task :=
  let user_text := request.text
  let t := summarize_task llm user_text
  match o 0 t with
  | .error e => (.error e, [t])
  | .ok result => (.ok { summary := result }, [t])

/-- The topic-analyzer agent (source lines 120-129). -/
def topic_analyzer (llm : LLMConfig) : Agent where
  role := "Topic Analyzer"
  goal := "Identify the most important topics and subtopics from the given study material."
  backstory := "You are an expert at reading long chapters and extracting only the most important headings and subheadings that students should study for exams."
  llm := llm
  verbose := true

/-- The notes-maker agent (source lines 131-140). -/
def notes_maker (llm : LLMConfig) : Agent where
  role := "Notes Maker"
  goal := "Write short, exam-focused notes in simple language."
  backstory := "You are a friendly college teacher. You explain concepts in very simple terms and create bullet-point notes that students can revise quickly before exams."
  llm := llm
  verbose := true

/-- The MCQ-maker agent (source lines 142-151). -/
def mcq_maker (llm : LLMConfig) : Agent where
  role := "MCQ Creator"
  goal := "Create clear MCQs based on the notes and topics, with 4 options and correct answer."
  backstory := "You are an experienced question paper setter. You create fair and clear MCQs that directly test understanding of the notes and topics."
  llm := llm
  verbose := true

/-- Literal chunk of the topic task description preceding the content
(source lines 157-159). -/
def topic_desc_pre : String :=
  "Read the following study material and extract the MOST IMPORTANT topics and subtopics for exam preparation and give full length description or points.\n\nCONTENT:\n"

/-- Literal chunk of the topic task description following the content
(source lines 159-169). -/
def topic_desc_post : String :=
  "\n\nOUTPUT FORMAT (VERY IMPORTANT):\n- Do NOT use any Markdown formatting (no *, no #, no **, no ```).\n- Use only plain text.\n- Write in this style:\n  Main Topic 1:\n    - Subtopic 1\n    - Subtopic 2\n  Main Topic 2:\n    - Subtopic 1\n    - Subtopic 2\n"

/-- The topic task (source lines 155-175): its description embeds the
original content between the two fixed chunks. -/
def topic_task (llm : LLMConfig) (content : String) : Task where
  description := topic_desc_pre ++ content ++ topic_desc_post
  expected_output := "A bullet list of main topics and their subtopics, focused only on what is actually important for exams."
  agent := topic_analyzer llm

/-- Literal chunk of the notes task description preceding the topics
text (source lines 190-193). -/
def notes_desc_pre : String :=
  "You are creating exam-focused notes for a B.Tech CSE student.\nUse the topics and subtopics listed below, plus the original content, to write SHORT, SCORING NOTES for university exams.\n\nTOPICS AND SUBTOPICS:\n"

/-- Literal chunk of the notes task description between the topics text
and the original content (source lines 194-195). -/
def notes_desc_mid : String :=
  "\n\nORIGINAL CONTENT:\n"

/-- Literal chunk of the notes task description following the original
content (source lines 196-224). -/
def notes_desc_post : String :=
  "\n\nVERY IMPORTANT RULES:\n- DO NOT use Markdown (no *, no #, no **, no ```).\n- Use ONLY plain text.\n- Write in clean headings and bullet points.\n- Target answers that can directly be written in 6–8 mark questions.\n- For each main topic, include:\n  1) Definition (1–2 lines)\n  2) Important points / properties (point-wise)\n  3) Important operations / algorithms (in short)\n  4) Advantages / disadvantages (if applicable)\n  5) Applications / examples (if useful)\n- Avoid long stories or over-explanation.\n- Keep language simple, as if explaining to an average student before exam.\n\nOUTPUT FORMAT (example style, but adapt to content):\nArray:\n  - Definition: ...\n  - Important points:\n    - ...\n    - ...\n  - Operations and time complexity:\n    - Traversal: ...\n    - Insertion: ...\n  - Advantages:\n    - ...\n  - Disadvantages:\n    - ...\n  - Applications:\n    - ...\n"

/-- The notes task (source lines 188-231): its description embeds the
topic stage's output and the original content. -/
def notes_task (llm : LLMConfig) (topics_text content : String) : Task where
  description := notes_desc_pre ++ topics_text ++ notes_desc_mid ++ content ++ notes_desc_post
  expected_output := "Plain text, point-wise exam notes (no markdown) for each main topic, good enough to write 6–8 mark answers directly."
  agent := notes_maker llm

/-- Literal chunk of the MCQ task description preceding the notes text
(source lines 247-248). -/
def mcq_desc_pre : String :=
  "Based on the notes below, generate MCQs for exam preparation.\n\nNOTES:\n"

/-- Literal chunk of the MCQ task description between the notes text and
the question count (source lines 248-249). -/
def mcq_desc_mid : String :=
  "\n\nCreate around "

/-- Literal chunk of the MCQ task description following the question
count (source lines 249-262). -/
def mcq_desc_post : String :=
  " MCQs.\n\nRULES:\n- Each question must have 4 options: (a), (b), (c), (d).\n- Clearly mention the correct answer after each question.\n- Questions should directly test understanding of the notes.\n- Avoid too tricky or confusing questions.\n\nOUTPUT FORMAT (very important):\nQ1. <question text>\n(a) option 1\n(b) option 2\n(c) option 3\n(d) option 4\nAnswer: <option letter>\n\nQ2. ... and so on."

/-- The MCQ task (source lines 245-268): its description embeds the
notes stage's output and the requested count — and nothing else; the
original request text is not a parameter. -/
def mcq_task (llm : LLMConfig) (notes_text : String) (num_mcqs : Int) : Task where
  description := mcq_desc_pre ++ notes_text ++ mcq_desc_mid ++ toString num_mcqs ++ mcq_desc_post
  expected_output := "A list of about " ++ toString num_mcqs ++ " MCQs in the specified format, each with options and correct answer."
  agent := mcq_maker llm

/-- POST /generate_study_material handler (source lines 105-285): run
the topic crew, then the notes crew on its output plus the content, then
the MCQ crew on the notes output plus the count; return the three raw
outputs.  An exception from any `kickoff` aborts the handler there.  The
second component records the generation calls made, in order. -/
def generate_study_material (llm : LLMConfig) (o : Oracle) (request : StudyMaterialRequest) :
    Except GenError StudyMaterialResponse × List Task :=
  let content := request.text
  let num_mcqs := request.num_mcqs
  let t0 := topic_task llm content
  match o 0 t0 with
  | .error e => (.error e, [t0])
  | .ok topics_result =>
      let topics_text := topics_result
      let t1 := notes_task llm topics_text content
      match o 1 t1 with
      | .error e => (.error e, [t0, t1])
      | .ok notes_result =>
          let notes_text := notes_result
          let t2 := mcq_task llm notes_text num_mcqs
          match o 2 t2 with
          | .error e => (.error e, [t0, t1, t2])
          | .ok mcq_result =>
              (.ok { topics := topics_text, notes := notes_text, mcqs := mcq_result },
               [t0, t1, t2])

/-- Modelled from the spec: request-body validation is performed by the
hosting framework (FastAPI/pydantic), whose code is not part of this
repository; only the declared models `SummarizeRequest` and
`StudyMaterialRequest` are.  Per the spec, a malformed body or a missing
required "text" field is "rejected by standard request-body validation
before reaching the orchestrator", and `num_mcqs` is an "optional
integer (default 5; no enforced minimum/maximum)".  Accordingly: "text"
must be present and a JSON string; an `int` field accepts a JSON number
with denominator 1 (any integer, arbitrary or negative) and rejects
strings, null, booleans, fractional numbers, arrays and objects. -/
def parseSummarizeRequest (body : Json) : Option SummarizeRequest :=
  match body.field ("text") with
  | some (.str t) => some { text := t }
  | _ => none

/-- Modelled from the spec: validation of the POST
/generate_study_material body; see `parseSummarizeRequest` for the
modelling note.  A missing `num_mcqs` defaults to 5; an integral JSON
number of any magnitude or sign is accepted unvalidated; any non-integer
value for `num_mcqs` is rejected. -/
def parseStudyMaterialRequest (body : Json) : Option StudyMaterialRequest :=
  match body.field ("text") with
  | some (.str t) =>
      match body.field ("num_mcqs") with
      | none => some { text := t, num_mcqs := 5 }
      | some (.num q) => if q.den = 1 then some { text := t, num_mcqs := q.num } else none
      | some _ => none
  | _ => none

/-- A request-level failure: either request-body validation rejected the
body (HTTP 422, before the handler runs), or an unhandled exception
escaped the handler (HTTP 500). -/
inductive HttpFailure where
  | validationError : HttpFailure
  | upstreamError : GenError → HttpFailure
deriving DecidableEq

/-- The full POST /summarize route: validation, then the handler.  A
body of `none` is malformed JSON.  The trace lists the generation calls
made while serving the request. -/
def post_summarize (llm : LLMConfig) (o : Oracle) (body : Option Json) :
    Except HttpFailure SummarizeResponse × List Task :=
  match body with
  | none => (.error .validationError, [])
  | some j =>
      match parseSummarizeRequest j with
      | none => (.error .validationError, [])
      | some r =>
          match summarize_text llm o r with
          | (.error e, tr) => (.error (.upstreamError e), tr)
          | (.ok resp, tr) => (.ok resp, tr)

/-- The full POST /generate_study_material route: validation, then the
handler. -/
def post_generate_study_material (llm : LLMConfig) (o : Oracle) (body : Option Json) :
    Except HttpFailure StudyMaterialResponse × List Task :=
  match body with
  | none => (.error .validationError, [])
  | some j =>
      match parseStudyMaterialRequest j with
      | none => (.error .validationError, [])
      | some r =>
          match generate_study_material llm o r with
          | (.error e, tr) => (.error (.upstreamError e), tr)
          | (.ok resp, tr) => (.ok resp, tr)

/-- Substring containment: `pat` occurs verbatim inside `s`. -/
def containsStr (s pat : String) : Prop :=
  pat.data <:+: s.data

instance (s pat : String) : Decidable (containsStr s pat) :=
  inferInstanceAs (Decidable (pat.data <:+: s.data))

/-- A string occurs in any concatenation that displays it between a
prefix and a suffix. -/
theorem containsStr_intro (x pat y : String) : containsStr (x ++ pat ++ y) pat :=
  ⟨x.data, y.data, by simp [String.data_append]⟩

/-- Substring containment established through the underlying character
lists. -/
theorem containsStr_of_data (s pat : String) (x y : List Char)
    (h : s.data = x ++ pat.data ++ y) : containsStr s pat :=
  ⟨x, y, h.symm⟩

/-- The notes instruction embeds the topic stage's output verbatim. -/
theorem notes_description_contains_topics (llm : LLMConfig) (topics_text content : String) :
    containsStr (notes_task llm topics_text content).description topics_text := by
  apply containsStr_of_data _ _ notes_desc_pre.data
    ((notes_desc_mid ++ content ++ notes_desc_post).data)
  simp [notes_task, String.data_append]

/-- The notes instruction embeds the original content verbatim. -/
theorem notes_description_contains_content (llm : LLMConfig) (topics_text content : String) :
    containsStr (notes_task llm topics_text content).description content := by
  apply containsStr_of_data _ _ ((notes_desc_pre ++ topics_text ++ notes_desc_mid).data)
    (notes_desc_post.data)
  simp [notes_task, String.data_append]

/-- The MCQ instruction embeds the notes stage's output verbatim. -/
theorem mcq_description_contains_notes (llm : LLMConfig) (notes_text : String) (n : Int) :
    containsStr (mcq_task llm notes_text n).description notes_text := by
  apply containsStr_of_data _ _ (mcq_desc_pre.data)
    ((mcq_desc_mid ++ toString n ++ mcq_desc_post).data)
  simp [mcq_task, String.data_append]

/-- The MCQ instruction embeds the decimal literal of the requested
count verbatim. -/
theorem mcq_description_contains_count (llm : LLMConfig) (notes_text : String) (n : Int) :
    containsStr (mcq_task llm notes_text n).description (toString n) := by
  apply containsStr_of_data _ _ ((mcq_desc_pre ++ notes_text ++ mcq_desc_mid).data)
    (mcq_desc_post.data)
  simp [mcq_task, String.data_append]

/-- A concrete LLM configuration used to instantiate theorems on
concrete inputs. -/
def testLLM : LLMConfig where
  model := "gemini/gemini-2.5-pro"
  api_key := "k"
  temperature := 3/10

/-- C9: GET / returns exactly the constant object with the fixed banner
message, independent of any request data, configuration, or prior
requests (the handler takes no inputs at all). -/
theorem read_root_constant_banner :
    read_root = Json.obj [("message", Json.str "Study Material Generator API is running 🚀")] :=
  rfl

/-- C6: if the required API credential is absent from the environment at
startup, module initialization fails with the source's ValueError
message, and no LLM handle (hence no serving application) is ever
produced. -/
theorem startup_fails_without_api_key (env : Env)
    (h : env ("GEMINI_API_KEY") = none) :
    buildApp env = Except.error ("GEMINI_API_KEY is not set. Please add it to your .env file.") ∧
      ∀ llm : LLMConfig, buildApp env ≠ Except.ok llm := by
  refine ⟨?_, ?_⟩
  · simp [buildApp, h]
  · intro llm hc
    simp [buildApp, h] at hc

/-- Witness for C6 at the empty environment. -/
theorem startup_fails_without_api_key_witness :
    buildApp (fun _ => none) =
        Except.error ("GEMINI_API_KEY is not set. Please add it to your .env file.") ∧
      ∀ llm : LLMConfig, buildApp (fun _ => none) ≠ Except.ok llm :=
  startup_fails_without_api_key (fun _ => none) rfl

/-- C7 counterexample: with the generation capability returning the
empty string, a successful /summarize call on a non-empty input yields
an empty "summary" field — the response's summary is the raw generation
result, but it is not always non-empty. -/
theorem summarize_empty_summary_output :
    ("abc" : String) ≠ "" ∧
      (summarize_text testLLM (fun _ _ => Except.ok ("")) { text := "abc" }).1 =
        Except.ok { summary := "" } :=
  ⟨by decide, rfl⟩

/-- C7 (amended): a successful POST /summarize returns a response whose
single field "summary" equals the stringified generation result of the
one summarization stage unchanged (hence it is non-empty exactly when
that result is); exactly one generation call is made. -/
theorem summarize_text_returns_raw_result (llm : LLMConfig) (o : Oracle)
    (r : SummarizeRequest) (s : String)
    (h : o 0 (summarize_task llm r.text) = Except.ok s) :
    summarize_text llm o r = (Except.ok { summary := s }, [summarize_task llm r.text]) := by
  simp [summarize_text, h]

/-- Witness for C7's amended theorem on a concrete request and oracle. -/
theorem summarize_text_returns_raw_result_witness :
    summarize_text testLLM (fun _ _ => Except.ok ("S")) { text := "t" } =
      (Except.ok { summary := "S" }, [summarize_task testLLM ("t")]) :=
  summarize_text_returns_raw_result testLLM (fun _ _ => Except.ok ("S")) { text := "t" } ("S") rfl

/-- C5: a POST body that is malformed JSON (no parseable value) or lacks
the required "text" field is rejected by request-body validation on both
endpoints before the orchestrator runs: the result is a validation
error and the generation capability is invoked zero times. -/
theorem malformed_body_rejected_before_generation (llm : LLMConfig) (o : Oracle)
    (body : Option Json)
    (h : body = none ∨ ∃ j, body = some j ∧ j.field ("text") = none) :
    post_summarize llm o body = (Except.error HttpFailure.validationError, []) ∧
      post_generate_study_material llm o body = (Except.error HttpFailure.validationError, []) := by
  rcases h with rfl | ⟨j, rfl, hf⟩
  · exact ⟨rfl, rfl⟩
  · refine ⟨?_, ?_⟩
    · simp [post_summarize, parseSummarizeRequest, hf]
    · simp [post_generate_study_material, parseStudyMaterialRequest, hf]

/-- Witness for C5 at a body with no "text" field. -/
theorem malformed_body_rejected_before_generation_witness :
    post_summarize testLLM (fun _ _ => Except.ok ("S")) (some (Json.obj [])) =
        (Except.error HttpFailure.validationError, []) ∧
      post_generate_study_material testLLM (fun _ _ => Except.ok ("S")) (some (Json.obj [])) =
        (Except.error HttpFailure.validationError, []) :=
  malformed_body_rejected_before_generation testLLM (fun _ _ => Except.ok ("S"))
    (some (Json.obj [])) (Or.inr ⟨Json.obj [], rfl, rfl⟩)

/-- C10: a body whose "num_mcqs" field is present but is not an integer
(a string, null, boolean, fractional number, array or object) is
rejected by type validation, with zero generation calls. -/
theorem non_integer_num_mcqs_rejected (llm : LLMConfig) (o : Oracle) (j : Json) (v : Json)
    (hv : j.field ("num_mcqs") = some v)
    (hnotint : ∀ q : Rat, v = Json.num q → q.den ≠ 1) :
    post_generate_study_material llm o (some j) = (Except.error HttpFailure.validationError, []) := by
  have hparse : parseStudyMaterialRequest j = none := by
    unfold parseStudyMaterialRequest
    rcases htext : j.field ("text") with _ | jt
    · rfl
    · cases jt with
      | str t =>
          rw [hv]
          cases v with
          | num q => simp [hnotint q rfl]
          | null => rfl
          | bool b => rfl
          | str s => rfl
          | arr xs => rfl
          | obj fs => rfl
      | null => rfl
      | bool b => rfl
      | num q => rfl
      | arr xs => rfl
      | obj fs => rfl
  simp [post_generate_study_material, hparse]

/-- Witness for C10 at a body carrying a non-numeric string count. -/
theorem non_integer_num_mcqs_rejected_witness :
    post_generate_study_material testLLM (fun _ _ => Except.ok ("S"))
        (some (Json.obj [("text", Json.str "abc"), ("num_mcqs", Json.str "five")])) =
      (Except.error HttpFailure.validationError, []) :=
  non_integer_num_mcqs_rejected testLLM (fun _ _ => Except.ok ("S"))
    (Json.obj [("text", Json.str "abc"), ("num_mcqs", Json.str "five")])
    (Json.str "five") rfl (fun q h => by cases h)

/-- C3: validation passes any integral "num_mcqs" through unvalidated
(arbitrary magnitude or sign), an absent field defaults to 5, and the
stage-3 MCQ instruction text embeds the decimal literal of the requested
count. -/
theorem num_mcqs_passthrough_and_embedding :
    (∀ (j : Json) (t : String), j.field ("text") = some (Json.str t) →
        j.field ("num_mcqs") = none →
        parseStudyMaterialRequest j = some { text := t, num_mcqs := 5 }) ∧
      (∀ (j : Json) (t : String) (q : Rat), j.field ("text") = some (Json.str t) →
        j.field ("num_mcqs") = some (Json.num q) → q.den = 1 →
        parseStudyMaterialRequest j = some { text := t, num_mcqs := q.num }) ∧
      ∀ (llm : LLMConfig) (notes_text : String) (n : Int),
        containsStr (mcq_task llm notes_text n).description (toString n) := by
  refine ⟨?_, ?_, ?_⟩
  · intro j t ht hn
    simp [parseStudyMaterialRequest, ht, hn]
  · intro j t q ht hq hden
    simp [parseStudyMaterialRequest, ht, hq, hden]
  · intro llm notes_text n
    exact mcq_description_contains_count llm notes_text n

/-- Witness for C3: a negative count is accepted and embedded; an absent
count defaults to 5. -/
theorem num_mcqs_passthrough_and_embedding_witness :
    parseStudyMaterialRequest (Json.obj [("text", Json.str "t")]) =
        some { text := "t", num_mcqs := 5 } ∧
      parseStudyMaterialRequest (Json.obj [("text", Json.str "t"), ("num_mcqs", Json.num (-7))]) =
        some { text := "t", num_mcqs := -7 } ∧
      containsStr (mcq_task testLLM ("notes") (-7)).description (toString (-7 : Int)) :=
  ⟨num_mcqs_passthrough_and_embedding.1 (Json.obj [("text", Json.str "t")]) ("t") rfl rfl,
   num_mcqs_passthrough_and_embedding.2.1
     (Json.obj [("text", Json.str "t"), ("num_mcqs", Json.num (-7))]) ("t") (-7) rfl rfl (by decide),
   num_mcqs_passthrough_and_embedding.2.2 testLLM ("notes") (-7)⟩

/-- An oracle that always succeeds with the fixed marker text. -/
def okOracle : Oracle := fun _ _ => Except.ok ("X")

/-- An oracle that always raises. -/
def errOracle : Oracle := fun _ _ => Except.error { message := "boom" }

/-- An oracle that agrees with `okOracle` on the first three calls and
differs afterwards. -/
def otherOracle : Oracle := fun i _ =>
  if i ≤ 2 then Except.ok ("X") else Except.error { message := "other request" }

/-- C1 counterexample: with input text "NOTES:" the stage-3 MCQ
instruction does contain the original input text (the fixed template
itself spells it), so the claim's "does not contain the original input
text" fails as stated. -/
theorem mcq_instruction_contains_input :
    generate_study_material testLLM okOracle { text := "NOTES:", num_mcqs := 5 } =
        (Except.ok { topics := "X", notes := "X", mcqs := "X" },
          [topic_task testLLM ("NOTES:"), notes_task testLLM ("X") ("NOTES:"),
            mcq_task testLLM ("X") 5]) ∧
      containsStr (mcq_task testLLM ("X") 5).description ("NOTES:") :=
  ⟨rfl, by decide⟩

/-- C1 (amended): on every successful run, the three generation calls
occur strictly in the order topics, notes, MCQs; the notes instruction
contains the stage-1 output and the original input text verbatim; the
MCQ instruction contains the stage-2 output verbatim and is built from
the stage-2 output and the requested count only (the original input text
is not substituted into it, though it may coincidentally occur as a
substring of the fixed template or of a stage output). -/
theorem pipeline_sequencing (llm : LLMConfig) (o : Oracle) (r : StudyMaterialRequest)
    (resp : StudyMaterialResponse)
    (h : (generate_study_material llm o r).1 = Except.ok resp) :
    ∃ s1 s2 : String,
      o 0 (topic_task llm r.text) = Except.ok s1 ∧
      o 1 (notes_task llm s1 r.text) = Except.ok s2 ∧
      (generate_study_material llm o r).2 =
        [topic_task llm r.text, notes_task llm s1 r.text, mcq_task llm s2 r.num_mcqs] ∧
      containsStr (notes_task llm s1 r.text).description s1 ∧
      containsStr (notes_task llm s1 r.text).description r.text ∧
      containsStr (mcq_task llm s2 r.num_mcqs).description s2 := by
  rcases h0 : o 0 (topic_task llm r.text) with e | s1
  · simp [generate_study_material, h0] at h
  · rcases h1 : o 1 (notes_task llm s1 r.text) with e | s2
    · simp [generate_study_material, h0, h1] at h
    · rcases h2 : o 2 (mcq_task llm s2 r.num_mcqs) with e | s3
      · simp [generate_study_material, h0, h1, h2] at h
      · exact ⟨s1, s2, rfl, h1, by simp [generate_study_material, h0, h1, h2],
          notes_description_contains_topics llm s1 r.text,
          notes_description_contains_content llm s1 r.text,
          mcq_description_contains_notes llm s2 r.num_mcqs⟩

/-- Witness for C1's amended theorem on a concrete request and oracle. -/
theorem pipeline_sequencing_witness :
    ∃ s1 s2 : String,
      okOracle 0 (topic_task testLLM ("t")) = Except.ok s1 ∧
      okOracle 1 (notes_task testLLM s1 ("t")) = Except.ok s2 ∧
      (generate_study_material testLLM okOracle { text := "t", num_mcqs := 5 }).2 =
        [topic_task testLLM ("t"), notes_task testLLM s1 ("t"), mcq_task testLLM s2 5] ∧
      containsStr (notes_task testLLM s1 ("t")).description s1 ∧
      containsStr (notes_task testLLM s1 ("t")).description ("t") ∧
      containsStr (mcq_task testLLM s2 5).description s2 :=
  pipeline_sequencing testLLM okOracle { text := "t", num_mcqs := 5 }
    { topics := "X", notes := "X", mcqs := "X" } rfl

/-- C2: on every successful run, the response consists of exactly the
three string fields topics, notes and mcqs, each equal to the
corresponding stage's raw generation output unchanged — no
post-parsing, filtering or validation is applied. -/
theorem response_fields_are_raw_outputs (llm : LLMConfig) (o : Oracle)
    (r : StudyMaterialRequest) (resp : StudyMaterialResponse)
    (h : (generate_study_material llm o r).1 = Except.ok resp) :
    ∃ s1 s2 : String,
      o 0 (topic_task llm r.text) = Except.ok s1 ∧
      o 1 (notes_task llm s1 r.text) = Except.ok s2 ∧
      o 2 (mcq_task llm s2 r.num_mcqs) = Except.ok resp.mcqs ∧
      resp.topics = s1 ∧ resp.notes = s2 := by
  rcases h0 : o 0 (topic_task llm r.text) with e | s1
  · simp [generate_study_material, h0] at h
  · rcases h1 : o 1 (notes_task llm s1 r.text) with e | s2
    · simp [generate_study_material, h0, h1] at h
    · rcases h2 : o 2 (mcq_task llm s2 r.num_mcqs) with e | s3
      · simp [generate_study_material, h0, h1, h2] at h
      · have hr : resp = { topics := s1, notes := s2, mcqs := s3 } := by
          simp [generate_study_material, h0, h1, h2] at h
          exact h.symm
        subst hr
        exact ⟨s1, s2, rfl, h1, h2, rfl, rfl⟩

/-- Witness for C2 on a concrete request and oracle. -/
theorem response_fields_are_raw_outputs_witness :
    ∃ s1 s2 : String,
      okOracle 0 (topic_task testLLM ("u")) = Except.ok s1 ∧
      okOracle 1 (notes_task testLLM s1 ("u")) = Except.ok s2 ∧
      okOracle 2 (mcq_task testLLM s2 3) =
        Except.ok (StudyMaterialResponse.mcqs { topics := "X", notes := "X", mcqs := "X" }) ∧
      StudyMaterialResponse.topics { topics := "X", notes := "X", mcqs := "X" } = s1 ∧
      StudyMaterialResponse.notes { topics := "X", notes := "X", mcqs := "X" } = s2 :=
  response_fields_are_raw_outputs testLLM okOracle { text := "u", num_mcqs := 3 }
    { topics := "X", notes := "X", mcqs := "X" } rfl

/-- C4: when a generation stage raises, the error surfaces from the
handler unchanged (no catch, no translation, no partial response), the
failing call is the last one issued (no later stage is ever invoked),
and every call issued before it had succeeded. -/
theorem failure_propagates_unchanged (llm : LLMConfig) (o : Oracle)
    (r : StudyMaterialRequest) (e : GenError)
    (h : (generate_study_material llm o r).1 = Except.error e) :
    ∃ pre t, (generate_study_material llm o r).2 = pre ++ [t] ∧
      o pre.length t = Except.error e ∧
      pre.length ≤ 2 ∧
      ∀ i ti, pre.get? i = some ti → ∃ s, o i ti = Except.ok s := by
  rcases h0 : o 0 (topic_task llm r.text) with e0 | s1
  · have he : e0 = e := by simpa [generate_study_material, h0] using h
    subst he
    refine ⟨[], topic_task llm r.text, by simp [generate_study_material, h0], ?_, by simp, ?_⟩
    · simpa using h0
    · intro i ti hti
      simp at hti
  · rcases h1 : o 1 (notes_task llm s1 r.text) with e1 | s2
    · have he : e1 = e := by simpa [generate_study_material, h0, h1] using h
      subst he
      refine ⟨[topic_task llm r.text], notes_task llm s1 r.text,
        by simp [generate_study_material, h0, h1], ?_, by simp, ?_⟩
      · simpa using h1
      · intro i ti hti
        rcases i with _ | i
        · simp at hti
          subst hti
          exact ⟨s1, h0⟩
        · simp at hti
    · rcases h2 : o 2 (mcq_task llm s2 r.num_mcqs) with e2 | s3
      · have he : e2 = e := by simpa [generate_study_material, h0, h1, h2] using h
        subst he
        refine ⟨[topic_task llm r.text, notes_task llm s1 r.text], mcq_task llm s2 r.num_mcqs,
          by simp [generate_study_material, h0, h1, h2], ?_, by simp, ?_⟩
        · simpa using h2
        · intro i ti hti
          rcases i with _ | _ | i
          · simp at hti
            subst hti
            exact ⟨s1, h0⟩
          · simp at hti
            subst hti
            exact ⟨s2, h1⟩
          · simp at hti
      · simp [generate_study_material, h0, h1, h2] at h

/-- Witness for C4 with an oracle failing on the first stage. -/
theorem failure_propagates_unchanged_witness :
    ∃ pre t,
      (generate_study_material testLLM errOracle { text := "t", num_mcqs := 5 }).2 = pre ++ [t] ∧
      errOracle pre.length t = Except.error { message := "boom" } ∧
      pre.length ≤ 2 ∧
      ∀ i ti, pre.get? i = some ti → ∃ s, errOracle i ti = Except.ok s :=
  failure_propagates_unchanged testLLM errOracle { text := "t", num_mcqs := 5 }
    { message := "boom" } rfl

/-- C8: the handler's full outcome (response and generation calls) is a
function of the request's own input and the oracle's replies to that
request's own calls alone: two oracles that agree on the calls a request
makes produce identical outcomes for it, so nothing leaks across
requests and every result is attributable to the request that produced
it. -/
theorem request_isolation (llm : LLMConfig) (r : StudyMaterialRequest) (o1 o2 : Oracle)
    (h : ∀ i t, ((generate_study_material llm o1 r).2).get? i = some t → o2 i t = o1 i t) :
    generate_study_material llm o2 r = generate_study_material llm o1 r := by
  rcases h0 : o1 0 (topic_task llm r.text) with e | s1
  · have h0' := h 0 (topic_task llm r.text) (by simp [generate_study_material, h0])
    simp [generate_study_material, h0, h0'.trans h0]
  · rcases h1 : o1 1 (notes_task llm s1 r.text) with e | s2
    · have h0' := h 0 (topic_task llm r.text) (by simp [generate_study_material, h0, h1])
      have h1' := h 1 (notes_task llm s1 r.text) (by simp [generate_study_material, h0, h1])
      simp [generate_study_material, h0, h1, h0'.trans h0, h1'.trans h1]
    · rcases h2 : o1 2 (mcq_task llm s2 r.num_mcqs) with e | s3
      · have h0' := h 0 (topic_task llm r.text) (by simp [generate_study_material, h0, h1, h2])
        have h1' := h 1 (notes_task llm s1 r.text) (by simp [generate_study_material, h0, h1, h2])
        have h2' := h 2 (mcq_task llm s2 r.num_mcqs)
          (by simp [generate_study_material, h0, h1, h2])
        simp [generate_study_material, h0, h1, h2, h0'.trans h0, h1'.trans h1, h2'.trans h2]
      · have h0' := h 0 (topic_task llm r.text) (by simp [generate_study_material, h0, h1, h2])
        have h1' := h 1 (notes_task llm s1 r.text) (by simp [generate_study_material, h0, h1, h2])
        have h2' := h 2 (mcq_task llm s2 r.num_mcqs)
          (by simp [generate_study_material, h0, h1, h2])
        simp [generate_study_material, h0, h1, h2, h0'.trans h0, h1'.trans h1, h2'.trans h2]

/-- Witness for C8: an oracle that differs from `okOracle` only beyond
the request's own three calls yields the identical outcome. -/
theorem request_isolation_witness :
    generate_study_material testLLM otherOracle { text := "t", num_mcqs := 5 } =
      generate_study_material testLLM okOracle { text := "t", num_mcqs := 5 } :=
  request_isolation testLLM { text := "t", num_mcqs := 5 } okOracle otherOracle
    (fun i t hti => by
      match i with
      | 0 => rfl
      | 1 => rfl
      | 2 => rfl
      | n + 3 => simp [generate_study_material, okOracle] at hti)

end StudyMaterialGen
